import Mathlib

set_option autoImplicit false

namespace DataIntelAgent

/-! # Verification of the data-intelligence-agent extraction pipeline

Shallow embedding of the routing / multi-tier extraction logic of the
repository: `main.py`, `extractor.py`, `strategy_router.py`,
`scrapers/universal_spider.py`, `extraction/structured_data_extractor.py`,
`extraction/content_optimizer.py` and `pipelines/validation_pipeline.py`.

Python/JSON values are modelled by an inductive `Json` type; dicts are
association lists in insertion order.  Network calls (the page fetch, every
LLM completion, the robots.txt read) are suspension points whose outcomes are
passed in as explicit `Option`/`Except` arguments or oracle functions, so
every definition below is executable on concrete outcomes. -/

/-- JSON/Python value as produced by `json.loads`: `None`, booleans, numbers,
strings, lists and string-keyed dicts.  Numbers are modelled as integers (the
claims only inspect `0`). -/
inductive Json where
  | null : Json
  | bool (b : Bool) : Json
  | num (n : Int) : Json
  | str (s : String) : Json
  | arr (elems : List Json) : Json
  | obj (fields : List (String × Json)) : Json

/-- A Python dict with string keys, as an insertion-ordered association list. -/
abbrev JsonObj := List (String × Json)

/-- Substring containment on character lists: `subChars t s` holds when `t`
occurs contiguously inside `s`. -/
def subChars : List Char → List Char → Bool
  | t, [] => t.isEmpty
  | t, s@(_ :: rest) => t.isPrefixOf s || subChars t rest

/-- Python's substring test `t in s` for strings. -/
def pyIn (t s : String) : Bool :=
  subChars t.data s.data

namespace UniversalSpider

/-- Per-value emptiness test from `UniversalSpider._is_empty`
(`src/scrapers/universal_spider.py` lines 236-241):
`(isinstance(v, list) and len(v) == 0) or v is None or v == {}`.
Numbers, booleans and strings (empty or not) satisfy none of the three
Python tests (`0 == {}`, `False == {}` and `"" == {}` are all `False`). -/
def emptyValue : Json → Bool
  | .null => true
  | .arr elems => elems.isEmpty
  | .obj fields => fields.isEmpty
  | _ => false

/-- `UniversalSpider._is_empty` (`src/scrapers/universal_spider.py` 230-241):
`if not data: return True`, then `all(<emptyValue test> for v in data.values())`. -/
def is_empty (data : JsonObj) : Bool :=
  if data.isEmpty then true
  else data.all fun kv => emptyValue kv.2

end UniversalSpider

/-- Extraction strategy types, `strategy_router.py` 29-32. -/
inductive StrategyType where
  | css
  | llm
deriving DecidableEq

/-- The `.value` of the `StrategyType` string enum. -/
def StrategyType.value : StrategyType → String
  | .css => "css"
  | .llm => "llm"

/-- The `Strategy` container of `strategy_router.py` 21-26. -/
structure Strategy where
  type : String
  schema : Json
  query : Option String

namespace StrategyRouter

/-- Outcome of the claude-3-5-haiku classification call inside
`_is_semantic_query`: `.ok text` with the response text, or `.error ()` when
the call raised (transport/API failure). -/
abbrev ClassifierOutcome := Except Unit String

/-- `StrategyRouter._is_semantic_query` (`src/strategy_router.py` 120-153):
`decision = response.content[0].text.strip().upper()` followed by
`"SEMANTIC" in decision`; the `except` block returns `True` on any failure. -/
def is_semantic_query (response : ClassifierOutcome) : Bool :=
  match response with
  | .ok text => pyIn "SEMANTIC" (text.trim.toUpper)
  | .error _ => true

/-- `StrategyRouter._create_llm_strategy` (`src/strategy_router.py` 199-221). -/
def create_llm_strategy (json_schema : Json) (query : String) :
    StrategyType × Strategy :=
  (.llm, ⟨"llm", json_schema, some query⟩)

/-- `StrategyRouter.choose_strategy` (`src/strategy_router.py` 89-118).
`response` is the classification-call outcome consumed by
`_is_semantic_query`; `isComplexSchema` the result of `_is_complex_schema`
(its value is irrelevant here, so it is universally quantified in the
theorems).  In the `prefer_css` branch the source only logs
"CSS strategy requested but requires manual selector configuration" and falls
through; `_create_css_strategy` is never reached from `choose_strategy`. -/
def choose_strategy (response : ClassifierOutcome) (isComplexSchema : Bool)
    (prefer_css : Bool) (json_schema : Json) (query : String) :
    StrategyType × Strategy :=
  if is_semantic_query response then
    create_llm_strategy json_schema query
  else if isComplexSchema then
    create_llm_strategy json_schema query
  else if prefer_css then
    create_llm_strategy json_schema query
  else
    create_llm_strategy json_schema query

end StrategyRouter

/-- Error taxonomy of `models.py` 29-47 (`ValidationError` is declared there
but never raised by `scrape`). -/
inductive ScrapeError where
  | extractionErr
  | schemaGenerationErr
  | strategyRoutingErr
deriving DecidableEq

/-- `check_robots_txt` (`src/main.py` 74-105).  `robotsFetch` is the outcome
of `rp.read()` followed by `rp.can_fetch(user_agent, url)`: `.ok b` when
robots.txt was fetched and parsed and `can_fetch` returned `b`; `.error ()`
when any step raised, in which case the `except` block returns `True`
("If robots.txt is not available, assume allowed"). -/
def check_robots_txt (robotsFetch : Except Unit Bool) : Bool :=
  match robotsFetch with
  | .ok can_fetch => can_fetch
  | .error _ => true

/-- Step 0 of `scrape` (`src/main.py` 140-148): when `respect_robots_txt` is
set and `check_robots_txt` returns `False`, raise
`ExtractionError("Scraping disallowed by robots.txt: ...")`; otherwise
proceed. -/
def robotsStep (respect_robots_txt : Bool) (robotsFetch : Except Unit Bool) :
    Except ScrapeError Unit :=
  if respect_robots_txt then
    if check_robots_txt robotsFetch then .ok () else .error .extractionErr
  else .ok ()

/-- Outcome of `pydantic_model(**raw_data)` followed by `model_dump()`:
`.ok validated` on success, `.error ()` for `PydanticValidationError`. -/
abbrev ValidationOutcome := Except Unit JsonObj

/-- Step 4 of `scrape` (`src/main.py` 218-246): without `skip_validation`,
a `PydanticValidationError` is logged and then
`ExtractionError("Data validation failed: ...")` is raised; with
`skip_validation` the raw data is returned unvalidated. -/
def scrapeValidationStep (skip_validation : Bool) (raw_data : JsonObj)
    (validation : ValidationOutcome) : Except ScrapeError JsonObj :=
  if !skip_validation then
    match validation with
    | .ok validated => .ok validated
    | .error _ => .error .extractionErr
  else .ok raw_data

/-- The dict yielded by `UniversalSpider._format_result`
(`src/scrapers/universal_spider.py` 207-228). -/
structure SpiderItem where
  url : String
  query : String
  extractedData : JsonObj
  extractionStrategy : String
  success : Bool
  errorMessage : Option String

namespace ValidationPipeline

/-- `ValidationPipeline.process_item` (`src/pipelines/validation_pipeline.py`
15-29): without a compiled model the item passes through; with one, a
successful validation replaces `extracted_data` by the dumped model, and a
`PydanticValidationError` is logged and the item returned unchanged
("Don't block - return unvalidated data"). -/
def process_item (hasModel : Bool) (validation : ValidationOutcome)
    (item : SpiderItem) : SpiderItem :=
  if !hasModel then item
  else
    match validation with
    | .ok validated => { item with extractedData := validated }
    | .error _ => item

end ValidationPipeline

namespace UniversalSpider

/-- The collaborators injected into `UniversalSpider.__init__`
(`src/scrapers/universal_spider.py` 53-95) and the outcomes of their calls:
`extract_all` is `StructuredDataExtractor.extract_all` (`None` or a dict),
`convert_structured_data` and `llmExtract` are the `ScrapyLLMExtractor`
completion calls (both catch their own exceptions and return `None`,
`extraction/llm_extractor.py` 34-115), `optimizeContent` is
`ContentOptimizer.optimize`.  The three `has...` flags model the extractors
being injected (non-`None`). -/
structure SpiderEnv where
  hasStructuredExtractor : Bool
  hasLlmExtractor : Bool
  hasContentOptimizer : Bool
  extract_all : String → Option JsonObj
  convert_structured_data : JsonObj → String → Option JsonObj
  llmExtract : String → Option JsonObj
  optimizeContent : String → String → String

/-- The three content tiers of `UniversalSpider.parse`, in source order. -/
inductive Tier where
  | structuredData
  | llmOptimized
  | llmFull
deriving DecidableEq

/-- `UniversalSpider._format_result` (`src/scrapers/universal_spider.py`
207-228): the yielded dict, with
`extraction_strategy = f"{self.strategy_type}_{extraction_method}"`. -/
def format_result (strategy_type query : String) (data : JsonObj) (url : String)
    (extraction_method : String) (success : Bool) (error_message : Option String) :
    SpiderItem :=
  ⟨url, query, data, strategy_type ++ "_" ++ extraction_method, success, error_message⟩

/-- Tier-1 completion call of `parse` (lines 140-157): `some r` exactly when
`convert_structured_data` is invoked (structured extractor injected,
`extract_all` returned a truthy dict, llm extractor injected), with `r` its
outcome. -/
def tier1Call (env : SpiderEnv) (query html : String) : Option (Option JsonObj) :=
  if env.hasStructuredExtractor then
    match env.extract_all html with
    | some sd =>
        if !sd.isEmpty && env.hasLlmExtractor then
          some (env.convert_structured_data sd query)
        else none
    | none => none
  else none

/-- Tier-2 completion call of `parse` (lines 159-168): `llm_extractor.extract`
on the optimized content, made when both optimizer and llm extractor are
injected. -/
def tier2Call (env : SpiderEnv) (query html : String) : Option (Option JsonObj) :=
  if env.hasContentOptimizer && env.hasLlmExtractor then
    some (env.llmExtract (env.optimizeContent html query))
  else none

/-- Tier-3 completion call of `parse` (lines 170-178): `llm_extractor.extract`
on the full HTML. -/
def tier3Call (env : SpiderEnv) (html : String) : Option (Option JsonObj) :=
  if env.hasLlmExtractor then some (env.llmExtract html) else none

/-- The guard `if extracted and not self._is_empty(extracted)` shared by all
three tiers: the tier yields data only when its call was made, returned a
truthy (non-`None`, non-empty) dict, and that dict is not `_is_empty`. -/
def tierYield (call : Option (Option JsonObj)) : Option JsonObj :=
  match call with
  | some (some extracted) =>
      if !extracted.isEmpty && !is_empty extracted then some extracted else none
  | _ => none

/-- Result of one `parse` run: the yielded item plus the list of tiers whose
completion call was actually made. -/
structure ParseRun where
  item : SpiderItem
  attempted : List Tier

/-- `UniversalSpider.parse` (`src/scrapers/universal_spider.py` 125-192).
The tiers run in source order, each guarded by the previous one yielding
nothing; when all three yield nothing the spider yields
`_format_result({}, url, "failed", success=False)`. -/
def parse (env : SpiderEnv) (strategy_type query url html : String) : ParseRun :=
  let c1 := tier1Call env query html
  let a1 : List Tier := if c1.isSome then [.structuredData] else []
  match tierYield c1 with
  | some extracted =>
      ⟨format_result strategy_type query extracted url "structured_data" true none, a1⟩
  | none =>
    let c2 := tier2Call env query html
    let a2 : List Tier := if c2.isSome then [.llmOptimized] else []
    match tierYield c2 with
    | some extracted =>
        ⟨format_result strategy_type query extracted url "llm_optimized" true none,
          a1 ++ a2⟩
    | none =>
      let c3 := tier3Call env html
      let a3 : List Tier := if c3.isSome then [.llmFull] else []
      match tierYield c3 with
      | some extracted =>
          ⟨format_result strategy_type query extracted url "llm_full" true none,
            a1 ++ a2 ++ a3⟩
      | none =>
          ⟨format_result strategy_type query [] url "failed" false none,
            a1 ++ a2 ++ a3⟩

end UniversalSpider

namespace WebExtractor

/-- Per-value test of the `has_data` generator inside the list-normalisation
block of `WebExtractor.extract` (`src/extractor.py` 235-240):
`(isinstance(v, list) and len(v) > 0) or (isinstance(v, dict) and v)
or (v is not None and v != "" and v != [])`.
An empty dict `{}` passes the third disjunct (in Python `{} != ""` and
`{} != []` both hold), so every dict counts as data; `None`, `""` and `[]`
are the only values that do not. -/
def valueHasData : Json → Bool
  | .null => false
  | .str s => !(s == "")
  | .arr elems => !elems.isEmpty
  | _ => true

/-- `has_data` for one list element: some field value passes `valueHasData`.
(Only invoked on dict elements in the source.) -/
def itemHasData : Json → Bool
  | .obj fields => fields.any fun kv => valueHasData kv.2
  | _ => false

/-- Python's `isinstance(item, dict)`. -/
def isDict : Json → Bool
  | .obj _ => true
  | _ => false

/-- List-vs-object normalisation of `WebExtractor.extract`
(`src/extractor.py` 224-253), applied to the parsed completion output when it
is a non-empty JSON array.  For `len > 1` with all-dict elements the source
scans for the first element with `has_data` and breaks (the subsequent
`if non_empty:` truthiness test cannot demote it: a found element has a
non-empty field dict, hence is itself truthy); if none is found it takes
element `[0]`.  Otherwise a singleton is unwrapped and a mixed-shape array is
wrapped as `{"items": [...]}`. -/
def normalizeListResponse : Json → Json
  | .arr (x :: xs) =>
      if 0 < xs.length && (x :: xs).all isDict then
        match (x :: xs).find? itemHasData with
        | some item => item
        | none => x
      else if xs.length == 0 then x
      else .obj [("items", .arr (x :: xs))]
  | j => j

/-- Emptiness test inlined in `WebExtractor.extract` (`src/extractor.py`
257-269): only dicts are tested (`is_empty` stays `False` otherwise); an
empty dict, or one whose values are all empty lists, `None` or `{}`, is
empty — the same per-value test as `UniversalSpider._is_empty`. -/
def dataIsEmpty : Json → Bool
  | .obj fields =>
      if fields.isEmpty then true
      else fields.all fun kv => UniversalSpider.emptyValue kv.2
  | _ => false

/-- Outcome of one `crawler.arun` call inside `WebExtractor.extract`
(`src/extractor.py` 163-167).  `content` models `result.extracted_content`:
`none` when falsy, otherwise `some p` with `p` the `json.loads` outcome
(`none` = `json.JSONDecodeError`).  `html` models `result.html` with `""`
falsy. -/
structure CrawlOutcome where
  success : Bool
  content : Option (Option Json)
  html : String

/-- The `ExtractionResult` pydantic model of `models.py` 6-16 (the
`extracted_data` field is kept as a `Json` value). -/
structure ExtractionResult where
  url : String
  query : String
  extracted_data : Json
  extraction_strategy : String
  success : Bool
  error_message : Option String

/-- Observable trace of one `WebExtractor.extract` run: the delays passed to
`asyncio.sleep` in order, and the attempt indices at which
`extract_from_alternative_sources` was invoked. -/
structure ExtractTrace where
  sleeps : List Nat
  altCalls : List Nat

/-- The retry loop of `WebExtractor.extract` (`src/extractor.py` 152-319),
one step per `for attempt in range(max_retries)` iteration; `outcomes` are
the successive `crawler.arun` outcomes still to be consumed and `alt` is
`extract_from_alternative_sources` (an LLM-backed pipeline returning `None`
or a dict, `src/extractor.py` 375-414).  A failed crawl retries after
`asyncio.sleep(2 ** attempt)` and raises `ExtractionError` on the last
attempt; a successful crawl with falsy `extracted_content` tries the
alternative sources on the captured HTML (returning a
`"{strategy}_alternative"` result when they produce a truthy dict), then
returns an unsuccessful result for CSS, else retries/raises; parsed content
is list-normalised, and if empty, alternative sources may replace it before
the successful return.  The exhausted-list case is the unreachable `raise`
at line 319. -/
def extractGo (alt : String → Option JsonObj) (st : StrategyType)
    (url query : String) (max_retries : Nat) :
    Nat → List CrawlOutcome → Except Unit ExtractionResult × ExtractTrace
  | _, [] => (.error (), ⟨[], []⟩)
  | attempt, r :: rest =>
    if !r.success then
      if attempt + 1 < max_retries then
        let (res, tr) := extractGo alt st url query max_retries (attempt + 1) rest
        (res, ⟨2 ^ attempt :: tr.sleeps, tr.altCalls⟩)
      else (.error (), ⟨[], []⟩)
    else
      match r.content with
      | none =>
        let tried : List Nat := if r.html ≠ "" then [attempt] else []
        let altData : JsonObj := if r.html ≠ "" then (alt r.html).getD [] else []
        if !altData.isEmpty then
          (.ok ⟨url, query, .obj altData, st.value ++ "_alternative", true, none⟩,
            ⟨[], tried⟩)
        else if st = .css then
          (.ok ⟨url, query, .obj [], st.value, false,
              some "CSS extraction returned no content"⟩,
            ⟨[], tried⟩)
        else if attempt + 1 < max_retries then
          let (res, tr) := extractGo alt st url query max_retries (attempt + 1) rest
          (res, ⟨2 ^ attempt :: tr.sleeps, tried ++ tr.altCalls⟩)
        else (.error (), ⟨[], tried⟩)
      | some none =>
        if attempt + 1 < max_retries then
          let (res, tr) := extractGo alt st url query max_retries (attempt + 1) rest
          (res, ⟨2 ^ attempt :: tr.sleeps, tr.altCalls⟩)
        else (.error (), ⟨[], []⟩)
      | some (some data) =>
        let data1 := normalizeListResponse data
        if dataIsEmpty data1 && r.html ≠ "" then
          let final :=
            match alt r.html with
            | some d => if !d.isEmpty then Json.obj d else data1
            | none => data1
          (.ok ⟨url, query, final, st.value, true, none⟩, ⟨[], [attempt]⟩)
        else
          (.ok ⟨url, query, data1, st.value, true, none⟩, ⟨[], []⟩)

/-- `WebExtractor.extract` (`src/extractor.py` 78-319): the loop runs over
`range(max_retries)` with a fresh `crawler.arun` outcome per attempt;
`max_retries` defaults to 3. -/
def extract (crawl : Nat → CrawlOutcome) (alt : String → Option JsonObj)
    (st : StrategyType) (url query : String) (max_retries : Nat := 3) :
    Except Unit ExtractionResult × ExtractTrace :=
  extractGo alt st url query max_retries 0 ((List.range max_retries).map crawl)

end WebExtractor

namespace StructuredDataExtractor

/-- The `relevant_types` list of `StructuredDataExtractor._is_relevant_schema`
(`src/extraction/structured_data_extractor.py` 154-161). -/
def relevant_types : List String :=
  ["Product", "Article", "NewsArticle", "BlogPosting",
   "JobPosting", "Review", "Organization", "Person",
   "Event", "Recipe", "Book", "Movie"]

/-- Python's `t in v` for a string `t` against a dynamic `@type` value `v`:
substring containment when `v` is a string, membership (element equality)
when `v` is a list, key membership when `v` is a dict, and `TypeError`
(`.error ()`) when `v` is not iterable (`None`, a number or a boolean). -/
def typeContains (t : String) : Json → Except Unit Bool
  | .str s => .ok (pyIn t s)
  | .arr items =>
      .ok (items.any fun item =>
        match item with
        | .str s => s == t
        | _ => false)
  | .obj fields => .ok (fields.any fun kv => kv.1 == t)
  | _ => .error ()

/-- The short-circuiting `any(t in schema_type for t in ts)`: the first
`True` wins, and a `TypeError` raised by `t in schema_type` propagates. -/
def anyContains : List String → Json → Except Unit Bool
  | [], _ => .ok false
  | t :: rest, v =>
      match typeContains t v with
      | .error e => .error e
      | .ok true => .ok true
      | .ok false => anyContains rest v

/-- `StructuredDataExtractor._is_relevant_schema`
(`src/extraction/structured_data_extractor.py` 154-161):
`any(t in schema_type for t in relevant_types)`, applied to whatever value
`data.get('@type', '')` produced — a substring test for string `@type`,
membership for list- or dict-valued `@type`, `TypeError` otherwise. -/
def is_relevant_schema (schema_type : Json) : Except Unit Bool :=
  anyContains relevant_types schema_type

/-- Python's `data.get('@type', '')` on a parsed dict: the stored value, or
`''` when the key is missing. -/
def getTypeValue (fields : JsonObj) : Json :=
  match fields.find? (fun kv => kv.1 == "@type") with
  | some kv => kv.2
  | none => .str ""

/-- The `isinstance(data, list)` arm of `extract_jsonld` (76-82): scan the
array's items in order; a dict item with relevant `@type` is returned, a
`TypeError` from the relevance test propagates, non-dict items are skipped. -/
def scanItems : List Json → Except Unit (Option Json)
  | [] => .ok none
  | item :: rest =>
      match item with
      | .obj fields =>
          match is_relevant_schema (getTypeValue fields) with
          | .error e => .error e
          | .ok true => .ok (some (.obj fields))
          | .ok false => scanItems rest
      | _ => scanItems rest

/-- Scan of one `<script type="application/ld+json">` block,
`StructuredDataExtractor.extract_jsonld` (`src/extraction/structured_data_extractor.py`
64-86).  `none` as input is a `json.JSONDecodeError` for that block (caught
by the inner handler, `continue`); a parsed dict is returned verbatim when
its `@type` is relevant; a parsed array yields its first dict item with
relevant `@type`; other JSON shapes fall through both `isinstance` tests.
A `TypeError` from a non-iterable `@type` escapes the inner
`except json.JSONDecodeError` as `.error ()`. -/
def blockScan : Option Json → Except Unit (Option Json)
  | none => .ok none
  | some (.obj fields) =>
      match is_relevant_schema (getTypeValue fields) with
      | .error e => .error e
      | .ok true => .ok (some (.obj fields))
      | .ok false => .ok none
  | some (.arr items) => scanItems items
  | some _ => .ok none

/-- The scanning loop of `extract_jsonld` (64-88) over the parsed script
blocks in document order: the first matching block wins, a per-block
`json.JSONDecodeError` is skipped, and an escaped exception aborts the
loop. -/
def extract_jsonldGo : List (Option Json) → Except Unit (Option Json)
  | [] => .ok none
  | b :: rest =>
      match blockScan b with
      | .error e => .error e
      | .ok (some j) => .ok (some j)
      | .ok none => extract_jsonldGo rest

/-- `StructuredDataExtractor.extract_jsonld` (52-92): the scan's result, with
the outer `except Exception` handler (90-92) turning any escaped exception —
in particular a `TypeError` from a non-iterable `@type` — into `None` for
the whole pass. -/
def extract_jsonld (blocks : List (Option Json)) : Option Json :=
  match extract_jsonldGo blocks with
  | .ok r => r
  | .error _ => none

end StructuredDataExtractor

namespace ContentOptimizer

/-- `ContentOptimizer.CONTENT_SELECTORS` (`src/extraction/content_optimizer.py`
44-55), in priority order. -/
def CONTENT_SELECTORS : List String :=
  ["main", "article", "[role=\"main\"]", ".main-content", ".content",
   "#main", "#content", ".product-info", ".product-details", ".pdp-main"]

/-- Abstract view of `BeautifulSoup(html, 'lxml')` after the `REMOVE_TAGS`
and `REMOVE_SELECTORS` decomposition steps (BeautifulSoup is an out-of-scope
collaborator): `selectOne` is `soup.select_one`, `body` is
`soup.find('body')`, `whole` the soup itself. -/
structure SoupView (Node : Type) where
  selectOne : String → Option Node
  body : Option Node
  whole : Node

/-- The out-of-scope collaborators of `ContentOptimizer.optimize`: the HTML
parse (plus removals) and `markdownify(str(node), heading_style="ATX")`. -/
structure OptimizeEnv (Node : Type) where
  soupOf : String → SoupView Node
  markdownify : Node → String

/-- `ContentOptimizer._extract_main_content` (97-111): first matching content
selector, else the `body`, else the whole soup. -/
def extract_main_content {Node : Type} (soup : SoupView Node) : Node :=
  match CONTENT_SELECTORS.findSome? soup.selectOne with
  | some content => content
  | none =>
      match soup.body with
      | some body => body
      | none => soup.whole

/-- `re.sub(r'\n{3,}', '\n\n', ...)`: any run of three or more newlines
collapses to exactly two. -/
def squeezeNewlines : List Char → List Char
  | [] => []
  | '\n' :: '\n' :: '\n' :: rest => squeezeNewlines ('\n' :: '\n' :: rest)
  | c :: rest => c :: squeezeNewlines rest

/-- `re.sub(r' {2,}', ' ', ...)`: any run of two or more spaces collapses to
one. -/
def squeezeSpaces : List Char → List Char
  | [] => []
  | ' ' :: ' ' :: rest => squeezeSpaces (' ' :: rest)
  | c :: rest => c :: squeezeSpaces rest

/-- Lazy scan of `.*?\)` without `re.DOTALL`: drop through the first `')'`,
failing on a newline or the end of input.  The returned suffix is strictly
shorter than the input, which drives termination of `removeEmptyLinks`. -/
def dropThroughParen : (l : List Char) → Option { r : List Char // r.length < l.length }
  | [] => none
  | ')' :: rest => some ⟨rest, by simp⟩
  | '\n' :: _ => none
  | _ :: rest =>
      match dropThroughParen rest with
      | some ⟨r, h⟩ => some ⟨r, by simpa using Nat.lt_succ_of_lt h⟩
      | none => none

/-- `re.sub(r'\[]\(.*?\)', '', ...)`: empty link placeholders `[](...)` are
deleted; when no closing parenthesis occurs before a newline the scan resumes
one character further, as the regex engine does. -/
def removeEmptyLinks : List Char → List Char
  | '[' :: ']' :: '(' :: rest =>
      match dropThroughParen rest with
      | some ⟨rest2, _⟩ => removeEmptyLinks rest2
      | none => '[' :: removeEmptyLinks (']' :: '(' :: rest)
  | c :: rest => c :: removeEmptyLinks rest
  | [] => []
termination_by l => l.length
decreasing_by
  · simpa using Nat.lt_succ_of_lt (Nat.lt_succ_of_lt (Nat.lt_succ_of_lt (by assumption)))
  · simp
  · simp

/-- `ContentOptimizer._clean_markdown` (113-127): collapse newlines, collapse
spaces, remove empty links, then `strip()`. -/
def clean_markdown (markdown : String) : String :=
  (String.mk (removeEmptyLinks (squeezeSpaces (squeezeNewlines markdown.data)))).trim

/-- Exceptions raised by the embedded Python fragments. -/
inductive PyError where
  | zeroDivision
deriving DecidableEq

/-- `ContentOptimizer.optimize` (`src/extraction/content_optimizer.py` 57-95).
Steps 1-4 (tag removal, region removal, main-content selection, markdownify)
run through the abstract collaborators in `env`; step 5 is `_clean_markdown`.
Line 93 then computes `(1 - len(markdown)/len(html)) * 100` inside an eagerly
evaluated f-string passed to `logger.debug`, which raises `ZeroDivisionError`
whenever `len(html) == 0`. -/
def optimize {Node : Type} (env : OptimizeEnv Node) (html _query : String) :
    Except PyError String :=
  let soup := env.soupOf html
  let main_content := extract_main_content soup
  let markdown := env.markdownify main_content
  let cleaned := clean_markdown markdown
  if html.length == 0 then .error .zeroDivision
  else .ok cleaned

end ContentOptimizer

/-- The two fetch paths of the T0 race: browser automation
(Playwright/Scrapy with proxy rotation) and the HTTP Web-Unlocker API. -/
inductive RacePath where
  | browser
  | unlocker
deriving DecidableEq

/-- The opposite path (the race loser when this one wins). -/
def RacePath.other : RacePath → RacePath
  | .browser => .unlocker
  | .unlocker => .browser

/-- Modelled from the spec: `WebExtractor.extract_with_race` is called from
`src/main.py` line 195 but its definition is absent from the sources, so the
winner test is taken from §4.5 "Fetch race": a path's result is usable when
it "completes ... with usable, non-empty content" — success with non-empty
extracted data. -/
def usableResult (r : WebExtractor.ExtractionResult) : Bool :=
  r.success && !WebExtractor.dataIsEmpty r.extracted_data

/-- Modelled from the spec: outcome of the fetch race — the winning
`ExtractionResult` (or a fetch-level failure when both paths fail) together
with the path that was cancelled as the race loser, if any. -/
structure RaceOutcome where
  winner : Except Unit WebExtractor.ExtractionResult
  cancelled : Option RacePath

/-- Modelled from the spec (§4.5 "Fetch race"): when the first-completing
path is not usable "the orchestrator does not immediately fail — it waits
for the remaining (slower) path and uses its result if successful", and
"only if both paths fail does the fetch step fail". -/
def raceFallback (secondResult : Option WebExtractor.ExtractionResult) :
    RaceOutcome :=
  match secondResult with
  | some r => if r.success then ⟨.ok r, none⟩ else ⟨.error (), none⟩
  | none => ⟨.error (), none⟩

/-- Modelled from the spec: `WebExtractor.extract_with_race` (absent from the
sources; `src/main.py` 195 is its only caller).  `firstPath` names the path
that completes first, `firstResult`/`secondResult` the two paths' outcomes in
completion order (`none` = the path's task raised).  Per §4.5, the
first-completing path with usable, non-empty content wins and "the other is
cancelled immediately"; otherwise the slower path's result is used if
successful; only if both fail does the fetch step fail. -/
def extract_with_race (firstPath : RacePath)
    (firstResult secondResult : Option WebExtractor.ExtractionResult) :
    RaceOutcome :=
  match firstResult with
  | some r =>
      if usableResult r then ⟨.ok r, some firstPath.other⟩
      else raceFallback secondResult
  | none => raceFallback secondResult

/-- Step 3 of `scrape` (`src/main.py` 193-216): a fetch-level failure
propagates as `ExtractionError`, and a returned result with
`success == False` raises
`ExtractionError(extraction_result.error_message or "Extraction failed")`;
otherwise `extracted_data` flows on to validation. -/
def scrapeFetchStep (race : RaceOutcome) : Except ScrapeError Json :=
  match race.winner with
  | .ok res => if res.success then .ok res.extracted_data else .error .extractionErr
  | .error _ => .error .extractionErr

/-! ### Concrete fixtures evaluated in the closed theorems -/

/-- A spider environment in which every tier's completion call is made and
every tier returns a dict that is `_is_empty` (all values `None`). -/
def spiderEnvAllEmpty : UniversalSpider.SpiderEnv :=
  ⟨true, true, true,
   fun _ => some [("jsonld", Json.obj [("@type", Json.str "Product")])],
   fun _ _ => some [("name", Json.null)],
   fun _ => some [("name", Json.null)],
   fun html _ => html⟩

/-- A crawl oracle whose every attempt loads successfully but extracts no
content (`extracted_content` falsy) while capturing HTML `"h"`. -/
def crawlNoContent : Nat → WebExtractor.CrawlOutcome :=
  fun _ => ⟨true, none, "h"⟩

/-- An `extract_from_alternative_sources` oracle that always finds a dict. -/
def altProduct : String → Option JsonObj :=
  fun _ => some [("x", Json.num 1)]

/-- A parsed JSON-LD block typed `BlogPosting` — matched by the source's
12-entry `relevant_types`, matched by nothing in the claim's 10-entry list. -/
def blogBlock : Json :=
  Json.obj [("@type", Json.str "BlogPosting"), ("headline", Json.str "Hello")]

/-- A parsed JSON-LD block typed `Product` (string `@type`). -/
def productBlock : Json :=
  Json.obj [("@type", Json.str "Product"), ("name", Json.str "Widget")]

/-- A parsed JSON-LD block with the standard list-valued `@type`
`["Product"]`, matched by Python's membership semantics of `t in list`. -/
def arrTypeBlock : Json :=
  Json.obj [("@type", Json.arr [Json.str "Product"]), ("name", Json.str "W")]

/-- A parsed JSON-LD block whose `@type` is `null` — not iterable, so the
relevance test raises `TypeError` and the whole pass returns `None`. -/
def nullTypeBlock : Json :=
  Json.obj [("@type", Json.null)]

/-- The JSON-LD allow-list exactly as the claim words it (ten entries,
without `NewsArticle` and `BlogPosting`); kept solely to compare against the
source's `relevant_types`. -/
def claimAllowList : List String :=
  ["Product", "Article", "JobPosting", "Review", "Organization",
   "Person", "Event", "Recipe", "Book", "Movie"]

/-- A soup view in which no content selector matches and there is no body. -/
def soupNoMatch : ContentOptimizer.SoupView Unit :=
  ⟨fun _ => none, none, ()⟩

/-- An optimizer environment over `soupNoMatch` whose markdownify always
yields `"DOC"`. -/
def optimizeEnvNoMatch : ContentOptimizer.OptimizeEnv Unit :=
  ⟨fun _ => soupNoMatch, fun _ => "DOC"⟩

/-- A usable unlocker-path result (success, non-empty data). -/
def unlockerWin : WebExtractor.ExtractionResult :=
  ⟨"u", "q", Json.obj [("title", Json.str "t")], "llm", true, none⟩

/-! ## Theorems -/

/-- Helper: the per-value test of `_is_empty` holds exactly on `None`, the
empty list and the empty dict. -/
theorem emptyValue_eq_true_iff (v : Json) :
    UniversalSpider.emptyValue v = true ↔
      (v = Json.null ∨ v = Json.arr [] ∨ v = Json.obj []) := by
  cases v <;> simp [UniversalSpider.emptyValue, List.isEmpty_iff]

/-- Helper: `_is_empty` holds exactly on the empty dict and on dicts whose
values are all `None`, `[]` or `{}`. -/
theorem is_empty_eq_true_iff (d : JsonObj) :
    UniversalSpider.is_empty d = true ↔
      (d = [] ∨ ∀ kv ∈ d, kv.2 = Json.null ∨ kv.2 = Json.arr [] ∨ kv.2 = Json.obj []) := by
  cases d with
  | nil => simp [UniversalSpider.is_empty]
  | cons kv tl =>
      simp [UniversalSpider.is_empty, List.all_eq_true, emptyValue_eq_true_iff]

/-- C3 (confirmed): `UniversalSpider._is_empty` — the emptiness test deciding
tier advancement — returns `True` iff the mapping is literally empty or every
value is `null`, an empty list or an empty mapping; consequently a mapping
containing `0`, `False` or a non-empty string is never empty. -/
theorem is_empty_characterization :
    (∀ d : JsonObj,
      UniversalSpider.is_empty d = true ↔
        (d = [] ∨ ∀ kv ∈ d, kv.2 = Json.null ∨ kv.2 = Json.arr [] ∨ kv.2 = Json.obj [])) ∧
    (∀ (d : JsonObj) (k : String) (v : Json), (k, v) ∈ d →
      (v = Json.num 0 ∨ v = Json.bool false ∨ ∃ s, s ≠ "" ∧ v = Json.str s) →
      UniversalSpider.is_empty d = false) := by
  refine ⟨is_empty_eq_true_iff, ?_⟩
  intro d k v hmem hv
  cases h : UniversalSpider.is_empty d with
  | false => rfl
  | true =>
      exfalso
      rcases (is_empty_eq_true_iff d).mp h with hnil | hall
      · subst hnil; simp at hmem
      · have hkv := hall (k, v) hmem
        rcases hv with h0 | h0 | ⟨s, _, h0⟩ <;> subst h0 <;> simp at hkv

/-- C3 witness: a mapping holding the number `0` (next to an empty list) is
not empty. -/
theorem is_empty_characterization_witness :
    UniversalSpider.is_empty [("count", Json.num 0), ("tags", Json.arr [])] = false :=
  is_empty_characterization.2 [("count", Json.num 0), ("tags", Json.arr [])]
    "count" (Json.num 0) (by simp) (Or.inl rfl)

/-- C7 (confirmed): in the selector-less case `choose_strategy` always
returns the LLM strategy — for every classification outcome, every schema
complexity verdict, and even when `prefer_css` is requested — and a failed
classification call defaults to requiring semantic interpretation. -/
theorem choose_strategy_always_llm :
    (∀ (response : StrategyRouter.ClassifierOutcome)
        (isComplexSchema prefer_css : Bool) (json_schema : Json) (query : String),
        StrategyRouter.choose_strategy response isComplexSchema prefer_css
            json_schema query =
          (StrategyType.llm, ⟨"llm", json_schema, some query⟩)) ∧
    StrategyRouter.is_semantic_query (.error ()) = true := by
  refine ⟨?_, rfl⟩
  intro response c p s q
  cases h : StrategyRouter.is_semantic_query response <;> cases c <;> cases p <;>
    simp [StrategyRouter.choose_strategy, StrategyRouter.create_llm_strategy, h]

/-- C10 (confirmed): an unreadable robots.txt makes `check_robots_txt` return
`True` and `scrape` proceed; the robots step raises `ExtractionError` exactly
when `respect_robots_txt` is set and the checker explicitly reported the URL
disallowed. -/
theorem robots_check_fails_open :
    check_robots_txt (.error ()) = true ∧
    (∀ respect_robots_txt : Bool,
        robotsStep respect_robots_txt (.error ()) = .ok ()) ∧
    (∀ (respect_robots_txt : Bool) (robotsFetch : Except Unit Bool),
        robotsStep respect_robots_txt robotsFetch = .error .extractionErr ↔
          respect_robots_txt = true ∧ robotsFetch = .ok false) := by
  refine ⟨rfl, ?_, ?_⟩
  · intro respect; cases respect <;> rfl
  · intro respect rf
    rcases rf with u | b
    · cases respect <;> simp [robotsStep, check_robots_txt]
    · cases respect <;> cases b <;> simp [robotsStep, check_robots_txt]

/-- C2 counterexample: with validation not skipped (and `scrape` having no
strict-mode option at all — its only options are `respect_robots_txt`,
`skip_validation`, `prefer_css`), a validation failure does not return the
unvalidated data: `scrape` raises `ExtractionError("Data validation
failed: ...")`, contradicting the claimed advisory behaviour. -/
theorem scrape_validation_failure_raises :
    scrapeValidationStep false [("title", Json.str "x")] (.error ()) =
      .error .extractionErr ∧
    (Except.error ScrapeError.extractionErr ≠
      (Except.ok [("title", Json.str "x")] : Except ScrapeError JsonObj)) :=
  ⟨rfl, fun h => nomatch h⟩

/-- C2 amended: a validation failure in `scrape` is always a hard
`ExtractionError` unless `skip_validation` is set (which skips validation
entirely and returns the raw data); it is the Scrapy
`ValidationPipeline.process_item` that logs and returns the unvalidated item
on failure, replacing the data by the dumped model only on success. -/
theorem validation_gate :
    (∀ raw_data : JsonObj,
        scrapeValidationStep false raw_data (.error ()) = .error .extractionErr) ∧
    (∀ (raw_data : JsonObj) (validation : ValidationOutcome),
        scrapeValidationStep true raw_data validation = .ok raw_data) ∧
    (∀ item : SpiderItem,
        ValidationPipeline.process_item true (.error ()) item = item) ∧
    (∀ (item : SpiderItem) (validated : JsonObj),
        ValidationPipeline.process_item true (.ok validated) item =
          { item with extractedData := validated }) :=
  ⟨fun _ => rfl, fun _ _ => rfl, fun _ => rfl, fun _ _ => rfl⟩

/-- Helper: `List.find?` returns the first element satisfying the predicate —
an element at some index `i` that satisfies it, with every earlier index
failing it. -/
theorem find?_first_spec {α : Type} (p : α → Bool) (l : List α) (a : α)
    (hfind : l.find? p = some a) :
    ∃ (i : Nat) (hi : i < l.length), l.get ⟨i, hi⟩ = a ∧ p a = true ∧
      ∀ (j : Nat) (hj : j < i), p (l.get ⟨j, hj.trans hi⟩) = false := by
  induction l with
  | nil => simp [List.find?] at hfind
  | cons x xs ih =>
      cases hp : p x with
      | true =>
          rw [List.find?_cons_of_pos _ hp] at hfind
          obtain rfl : x = a := by injection hfind
          refine ⟨0, by simp, rfl, hp, ?_⟩
          intro j hj
          exact absurd hj (Nat.not_lt_zero j)
      | false =>
          rw [List.find?_cons_of_neg _ (by simp [hp])] at hfind
          obtain ⟨i, hi, hget, hpa, hfirst⟩ := ih hfind
          refine ⟨i + 1, by simpa using Nat.succ_lt_succ hi, by simpa using hget,
            hpa, ?_⟩
          intro j hj
          cases j with
          | zero => simpa using hp
          | succ j0 => simpa using hfirst j0 (Nat.lt_of_succ_lt_succ hj)

/-- C6 (confirmed): normalisation of an array returned where a single object
was expected (`WebExtractor.extract` 224-253): a singleton is unwrapped; a
multi-element all-dict array selects the first element containing data
(first-wins, every earlier element contains none), or element 0 when none
does; a multi-element array that is not uniformly dict-shaped is wrapped
under a synthetic `"items"` key.  "Containing at least one non-empty field"
is the source's `has_data` test (`valueHasData`): any field value other than
`None`, `""` and `[]`. -/
theorem normalize_list_policy :
    (∀ x : Json, WebExtractor.normalizeListResponse (.arr [x]) = x) ∧
    (∀ (x : Json) (xs : List Json), xs ≠ [] →
        (x :: xs).all WebExtractor.isDict = true →
        ((∃ (i : Nat) (hi : i < (x :: xs).length),
            WebExtractor.normalizeListResponse (.arr (x :: xs)) =
              (x :: xs).get ⟨i, hi⟩ ∧
            WebExtractor.itemHasData ((x :: xs).get ⟨i, hi⟩) = true ∧
            ∀ (j : Nat) (hj : j < i),
              WebExtractor.itemHasData ((x :: xs).get ⟨j, hj.trans hi⟩) = false) ∨
          ((∀ it ∈ x :: xs, WebExtractor.itemHasData it = false) ∧
            WebExtractor.normalizeListResponse (.arr (x :: xs)) = x))) ∧
    (∀ (x : Json) (xs : List Json), xs ≠ [] →
        ¬((x :: xs).all WebExtractor.isDict = true) →
        WebExtractor.normalizeListResponse (.arr (x :: xs)) =
          .obj [("items", .arr (x :: xs))]) := by
  refine ⟨?_, ?_, ?_⟩
  · intro x
    simp [WebExtractor.normalizeListResponse]
  · intro x xs hne hall
    obtain ⟨y, ys, rfl⟩ : ∃ y ys, xs = y :: ys := by
      cases xs with
      | nil => exact absurd rfl hne
      | cons y ys => exact ⟨y, ys, rfl⟩
    cases hf : (x :: y :: ys).find? WebExtractor.itemHasData with
    | some item =>
        left
        obtain ⟨i, hi, hget, hpa, hfirst⟩ := find?_first_spec _ _ _ hf
        refine ⟨i, hi, ?_, hget ▸ hpa, fun j hj => hfirst j hj⟩
        have hred : WebExtractor.normalizeListResponse (.arr (x :: y :: ys)) = item := by
          simp [WebExtractor.normalizeListResponse, hall, hf]
        rw [hred, hget]
    | none =>
        right
        constructor
        · intro it hit
          simpa using List.find?_eq_none.mp hf it hit
        · simp [WebExtractor.normalizeListResponse, hall, hf]
  · intro x xs hne hnall
    obtain ⟨y, ys, rfl⟩ : ∃ y ys, xs = y :: ys := by
      cases xs with
      | nil => exact absurd rfl hne
      | cons y ys => exact ⟨y, ys, rfl⟩
    cases hb : (x :: y :: ys).all WebExtractor.isDict with
    | true => exact absurd hb hnall
    | false => simp [WebExtractor.normalizeListResponse, hb]

/-- C6 witness: a two-element array that is not uniformly dict-shaped is
wrapped whole under a synthetic `"items"` key. -/
theorem normalize_list_policy_witness :
    WebExtractor.normalizeListResponse (.arr [Json.obj [], Json.num 3]) =
      .obj [("items", .arr [Json.obj [], Json.num 3])] :=
  normalize_list_policy.2.2 (Json.obj []) [Json.num 3] (by simp)
    (by simp [WebExtractor.isDict])

/-- Helper: what `parse` yields, as a function of the three tier yields. -/
theorem parse_item_spec (env : UniversalSpider.SpiderEnv)
    (st query url html : String) :
    (∀ d, UniversalSpider.tierYield (UniversalSpider.tier1Call env query html) = some d →
      (UniversalSpider.parse env st query url html).item =
        ⟨url, query, d, st ++ "_" ++ "structured_data", true, none⟩) ∧
    (UniversalSpider.tierYield (UniversalSpider.tier1Call env query html) = none →
      ∀ d, UniversalSpider.tierYield (UniversalSpider.tier2Call env query html) = some d →
      (UniversalSpider.parse env st query url html).item =
        ⟨url, query, d, st ++ "_" ++ "llm_optimized", true, none⟩) ∧
    (UniversalSpider.tierYield (UniversalSpider.tier1Call env query html) = none →
      UniversalSpider.tierYield (UniversalSpider.tier2Call env query html) = none →
      ∀ d, UniversalSpider.tierYield (UniversalSpider.tier3Call env html) = some d →
      (UniversalSpider.parse env st query url html).item =
        ⟨url, query, d, st ++ "_" ++ "llm_full", true, none⟩) ∧
    (UniversalSpider.tierYield (UniversalSpider.tier1Call env query html) = none →
      UniversalSpider.tierYield (UniversalSpider.tier2Call env query html) = none →
      UniversalSpider.tierYield (UniversalSpider.tier3Call env html) = none →
      (UniversalSpider.parse env st query url html).item =
        ⟨url, query, [], st ++ "_" ++ "failed", false, none⟩) := by
  refine ⟨?_, ?_, ?_, ?_⟩
  · intro d hd
    simp [UniversalSpider.parse, hd, UniversalSpider.format_result]
  · intro h1 d hd
    simp [UniversalSpider.parse, h1, hd, UniversalSpider.format_result]
  · intro h1 h2 d hd
    simp [UniversalSpider.parse, h1, h2, hd, UniversalSpider.format_result]
  · intro h1 h2 h3
    simp [UniversalSpider.parse, h1, h2, h3, UniversalSpider.format_result]

/-- Helper: three optional tier markers in source order always form a
sublist of the full tier sequence. -/
theorem tier_markers_sublist (b1 b2 b3 : Bool) :
    List.Sublist ((if b1 then [UniversalSpider.Tier.structuredData] else []) ++
        (if b2 then [UniversalSpider.Tier.llmOptimized] else []) ++
        (if b3 then [UniversalSpider.Tier.llmFull] else []))
      [UniversalSpider.Tier.structuredData, UniversalSpider.Tier.llmOptimized,
        UniversalSpider.Tier.llmFull] := by
  cases b1 <;> cases b2 <;> cases b3 <;> decide

/-- Helper: the tiers attempted by one `parse` run, in source order, are a
sublist of `[structuredData, llmOptimized, llmFull]`. -/
theorem parse_attempted_sublist (env : UniversalSpider.SpiderEnv)
    (st query url html : String) :
    List.Sublist (UniversalSpider.parse env st query url html).attempted
      [UniversalSpider.Tier.structuredData, UniversalSpider.Tier.llmOptimized,
        UniversalSpider.Tier.llmFull] := by
  rcases hy1 : UniversalSpider.tierYield (UniversalSpider.tier1Call env query html)
    with _ | d1
  · rcases hy2 : UniversalSpider.tierYield (UniversalSpider.tier2Call env query html)
      with _ | d2
    · rcases hy3 : UniversalSpider.tierYield (UniversalSpider.tier3Call env html)
        with _ | d3
      · simp only [UniversalSpider.parse, hy1, hy2, hy3]
        exact tier_markers_sublist _ _ _
      · simp only [UniversalSpider.parse, hy1, hy2, hy3]
        exact tier_markers_sublist _ _ _
    · simp only [UniversalSpider.parse, hy1, hy2]
      have := tier_markers_sublist (UniversalSpider.tier1Call env query html).isSome
        (UniversalSpider.tier2Call env query html).isSome false
      simpa using this
  · simp only [UniversalSpider.parse, hy1]
    have := tier_markers_sublist (UniversalSpider.tier1Call env query html).isSome
      false false
    simpa using this

/-- Helper: a later tier's completion call is made only when every earlier
tier yielded nothing. -/
theorem parse_attempt_order (env : UniversalSpider.SpiderEnv)
    (st query url html : String) :
    (UniversalSpider.Tier.llmOptimized ∈
        (UniversalSpider.parse env st query url html).attempted →
      UniversalSpider.tierYield (UniversalSpider.tier1Call env query html) = none) ∧
    (UniversalSpider.Tier.llmFull ∈
        (UniversalSpider.parse env st query url html).attempted →
      UniversalSpider.tierYield (UniversalSpider.tier1Call env query html) = none ∧
      UniversalSpider.tierYield (UniversalSpider.tier2Call env query html) = none) := by
  rcases hy1 : UniversalSpider.tierYield (UniversalSpider.tier1Call env query html)
    with _ | d1
  · rcases hy2 : UniversalSpider.tierYield (UniversalSpider.tier2Call env query html)
      with _ | d2
    · exact ⟨fun _ => rfl, fun _ => ⟨rfl, rfl⟩⟩
    · constructor
      · intro _; rfl
      · intro hmem
        exfalso
        simp only [UniversalSpider.parse, hy1, hy2] at hmem
        rcases (UniversalSpider.tier1Call env query html).isSome with _ | _ <;>
          rcases (UniversalSpider.tier2Call env query html).isSome with _ | _ <;>
          simp_all
  · constructor <;>
    · intro hmem
      exfalso
      simp only [UniversalSpider.parse, hy1] at hmem
      rcases (UniversalSpider.tier1Call env query html).isSome with _ | _ <;> simp_all

/-- C5 amended: within one `parse` invocation the tiers run strictly
sequentially in the order structured-data conversion, optimized-content
completion, full-raw-content completion, a later tier's call made only when
every earlier tier yielded empty data; the result's `extraction_strategy`
records the producing tier with the strategy-type prefix
(`f"{strategy_type}_{method}"`), and when every tier yields empty the result
has `success = False` and strategy `strategy_type ++ "_failed"` (not the
bare `"failed"` the claim stated). -/
theorem parse_sequential_tiers (env : UniversalSpider.SpiderEnv)
    (st query url html : String) :
    List.Sublist (UniversalSpider.parse env st query url html).attempted
      [UniversalSpider.Tier.structuredData, UniversalSpider.Tier.llmOptimized,
        UniversalSpider.Tier.llmFull] ∧
    (UniversalSpider.Tier.llmOptimized ∈
        (UniversalSpider.parse env st query url html).attempted →
      UniversalSpider.tierYield (UniversalSpider.tier1Call env query html) = none) ∧
    (UniversalSpider.Tier.llmFull ∈
        (UniversalSpider.parse env st query url html).attempted →
      UniversalSpider.tierYield (UniversalSpider.tier1Call env query html) = none ∧
      UniversalSpider.tierYield (UniversalSpider.tier2Call env query html) = none) ∧
    (∀ d, UniversalSpider.tierYield (UniversalSpider.tier1Call env query html) = some d →
      (UniversalSpider.parse env st query url html).item =
        ⟨url, query, d, st ++ "_" ++ "structured_data", true, none⟩) ∧
    (UniversalSpider.tierYield (UniversalSpider.tier1Call env query html) = none →
      ∀ d, UniversalSpider.tierYield (UniversalSpider.tier2Call env query html) = some d →
      (UniversalSpider.parse env st query url html).item =
        ⟨url, query, d, st ++ "_" ++ "llm_optimized", true, none⟩) ∧
    (UniversalSpider.tierYield (UniversalSpider.tier1Call env query html) = none →
      UniversalSpider.tierYield (UniversalSpider.tier2Call env query html) = none →
      ∀ d, UniversalSpider.tierYield (UniversalSpider.tier3Call env html) = some d →
      (UniversalSpider.parse env st query url html).item =
        ⟨url, query, d, st ++ "_" ++ "llm_full", true, none⟩) ∧
    (UniversalSpider.tierYield (UniversalSpider.tier1Call env query html) = none →
      UniversalSpider.tierYield (UniversalSpider.tier2Call env query html) = none →
      UniversalSpider.tierYield (UniversalSpider.tier3Call env html) = none →
      (UniversalSpider.parse env st query url html).item =
        ⟨url, query, [], st ++ "_" ++ "failed", false, none⟩) :=
  ⟨parse_attempted_sublist env st query url html,
   (parse_attempt_order env st query url html).1,
   (parse_attempt_order env st query url html).2,
   (parse_item_spec env st query url html).1,
   (parse_item_spec env st query url html).2.1,
   (parse_item_spec env st query url html).2.2.1,
   (parse_item_spec env st query url html).2.2.2⟩

/-- C5 counterexample: in a run where every tier's completion call is made
and every tier yields empty data, the failure result carries
`extraction_strategy = "llm_failed"`, not the bare `"failed"` the claim
states (the spider always prefixes the strategy type). -/
theorem parse_failed_tag_counterexample :
    (UniversalSpider.parse spiderEnvAllEmpty "llm" "q" "u" "h").item.extractionStrategy =
      "llm_failed" ∧
    (UniversalSpider.parse spiderEnvAllEmpty "llm" "q" "u" "h").item.success = false ∧
    UniversalSpider.tierYield
      (UniversalSpider.tier1Call spiderEnvAllEmpty "q" "h") = none ∧
    UniversalSpider.tierYield
      (UniversalSpider.tier2Call spiderEnvAllEmpty "q" "h") = none ∧
    UniversalSpider.tierYield
      (UniversalSpider.tier3Call spiderEnvAllEmpty "h") = none ∧
    ("llm_failed" : String) ≠ "failed" :=
  ⟨rfl, rfl, rfl, rfl, rfl, by decide⟩

/-- C5 witness: the all-tiers-empty run of `parse` on the concrete
environment, through the amended theorem. -/
theorem parse_sequential_tiers_witness :
    (UniversalSpider.parse spiderEnvAllEmpty "llm" "q" "u" "h").item =
      ⟨"u", "q", [], "llm" ++ "_" ++ "failed", false, none⟩ :=
  (parse_sequential_tiers spiderEnvAllEmpty "llm" "q" "u" "h").2.2.2.2.2.2 rfl rfl rfl

/-- Helper: the JSON-LD scanning loop yields an object exactly when some
block is the first (in document order) to match, every earlier block
scanning cleanly to no match. -/
theorem extract_jsonldGo_eq_some_iff (blocks : List (Option Json)) (j : Json) :
    StructuredDataExtractor.extract_jsonldGo blocks = .ok (some j) ↔
      ∃ (i : Nat) (hi : i < blocks.length),
        StructuredDataExtractor.blockScan (blocks.get ⟨i, hi⟩) = .ok (some j) ∧
        ∀ (k : Nat) (hk : k < i),
          StructuredDataExtractor.blockScan (blocks.get ⟨k, hk.trans hi⟩) =
            .ok none := by
  induction blocks with
  | nil => simp [StructuredDataExtractor.extract_jsonldGo]
  | cons b rest ih =>
      rcases hb : StructuredDataExtractor.blockScan b with e | r
      · have hred : StructuredDataExtractor.extract_jsonldGo (b :: rest) =
            .error e := by
          simp [StructuredDataExtractor.extract_jsonldGo, hb]
        constructor
        · intro h
          rw [hred] at h
          exact Except.noConfusion h
        · rintro ⟨i, hi, hmatch, hfirst⟩
          exfalso
          cases i with
          | zero =>
              have h0 : StructuredDataExtractor.blockScan b = .ok (some j) := hmatch
              rw [hb] at h0
              exact Except.noConfusion h0
          | succ i0 =>
              have h0 : StructuredDataExtractor.blockScan b = .ok none :=
                hfirst 0 (Nat.succ_pos i0)
              rw [hb] at h0
              exact Except.noConfusion h0
      · cases r with
        | some j2 =>
            have hred : StructuredDataExtractor.extract_jsonldGo (b :: rest) =
                .ok (some j2) := by
              simp [StructuredDataExtractor.extract_jsonldGo, hb]
            constructor
            · intro h
              rw [hred] at h
              have hj : j2 = j := by
                injection h with h1
                injection h1
              subst hj
              exact ⟨0, Nat.succ_pos _, hb, fun k hk => absurd hk (Nat.not_lt_zero k)⟩
            · rintro ⟨i, hi, hmatch, hfirst⟩
              cases i with
              | zero =>
                  have hmatch2 : StructuredDataExtractor.blockScan b =
                      .ok (some j) := hmatch
                  rw [hb] at hmatch2
                  have hj : j2 = j := by
                    injection hmatch2 with h1
                    injection h1
                  rw [hred, hj]
              | succ i0 =>
                  exfalso
                  have h0 : StructuredDataExtractor.blockScan b = .ok none :=
                    hfirst 0 (Nat.succ_pos i0)
                  rw [hb] at h0
                  have h1 : (some j2 : Option Json) = none := by injection h0
                  exact Option.noConfusion h1
        | none =>
            have hred : StructuredDataExtractor.extract_jsonldGo (b :: rest) =
                StructuredDataExtractor.extract_jsonldGo rest := by
              simp [StructuredDataExtractor.extract_jsonldGo, hb]
            rw [hred, ih]
            constructor
            · rintro ⟨i, hi, hmatch, hfirst⟩
              refine ⟨i + 1, Nat.succ_lt_succ hi, hmatch, ?_⟩
              intro k hk
              cases k with
              | zero => exact hb
              | succ k0 => exact hfirst k0 (Nat.lt_of_succ_lt_succ hk)
            · rintro ⟨i, hi, hmatch, hfirst⟩
              cases i with
              | zero =>
                  exfalso
                  have h0 : StructuredDataExtractor.blockScan b =
                      .ok (some j) := hmatch
                  rw [hb] at h0
                  have h1 : (none : Option Json) = some j := by injection h0
                  exact Option.noConfusion h1
              | succ i0 =>
                  exact ⟨i0, Nat.lt_of_succ_lt_succ hi, hmatch,
                    fun k hk => hfirst (k + 1) (Nat.succ_lt_succ hk)⟩

/-- Helper: a scan in which every block cleanly matches nothing returns
`.ok none`. -/
theorem extract_jsonldGo_none (blocks : List (Option Json))
    (hall : ∀ b ∈ blocks, StructuredDataExtractor.blockScan b = .ok none) :
    StructuredDataExtractor.extract_jsonldGo blocks = .ok none := by
  induction blocks with
  | nil => rfl
  | cons b rest ih =>
      have hb := hall b (List.mem_cons_self b rest)
      have hrest := ih fun b2 hb2 => hall b2 (List.mem_cons_of_mem b hb2)
      simp [StructuredDataExtractor.extract_jsonldGo, hb, hrest]

/-- C8 amended: the JSON-LD pass returns exactly the first block (in document
order) whose `@type` matches the source's 12-entry allow-list
`relevant_types` (the claim's ten entries plus `NewsArticle` and
`BlogPosting`), matching by substring containment for string `@type` values
and by Python membership for list- or dict-valued ones; the matching block's
parsed object is returned verbatim; a JSON parse failure in one block does
not abort the scan of later blocks; `None` is returned when no block
matches; and a non-iterable `@type` (`null`, number, boolean) raises
`TypeError`, which the outer handler turns into `None` for the whole pass,
aborting the scan of the remaining blocks. -/
theorem extract_jsonld_spec :
    (∀ (blocks : List (Option Json)) (j : Json),
        StructuredDataExtractor.extract_jsonldGo blocks = .ok (some j) ↔
          ∃ (i : Nat) (hi : i < blocks.length),
            StructuredDataExtractor.blockScan (blocks.get ⟨i, hi⟩) = .ok (some j) ∧
            ∀ (k : Nat) (hk : k < i),
              StructuredDataExtractor.blockScan (blocks.get ⟨k, hk.trans hi⟩) =
                .ok none) ∧
    (∀ (blocks : List (Option Json)) (j : Json),
        StructuredDataExtractor.extract_jsonld blocks = some j ↔
          StructuredDataExtractor.extract_jsonldGo blocks = .ok (some j)) ∧
    (∀ blocks : List (Option Json),
        StructuredDataExtractor.extract_jsonld (none :: blocks) =
          StructuredDataExtractor.extract_jsonld blocks) ∧
    (∀ blocks : List (Option Json),
        (∀ b ∈ blocks, StructuredDataExtractor.blockScan b = .ok none) →
        StructuredDataExtractor.extract_jsonld blocks = none) ∧
    (∀ (b : Option Json) (rest : List (Option Json)),
        StructuredDataExtractor.blockScan b = .error () →
        StructuredDataExtractor.extract_jsonld (b :: rest) = none) ∧
    (∀ fields : JsonObj,
        StructuredDataExtractor.is_relevant_schema
            (StructuredDataExtractor.getTypeValue fields) = .ok true →
        StructuredDataExtractor.blockScan (some (.obj fields)) =
          .ok (some (.obj fields))) ∧
    StructuredDataExtractor.extract_jsonld [some arrTypeBlock] =
      some arrTypeBlock := by
  refine ⟨extract_jsonldGo_eq_some_iff, ?_, fun blocks => rfl, ?_, ?_, ?_, rfl⟩
  · intro blocks j
    rcases hg : StructuredDataExtractor.extract_jsonldGo blocks with e | r
    · simp [StructuredDataExtractor.extract_jsonld, hg]
    · simp [StructuredDataExtractor.extract_jsonld, hg]
  · intro blocks hall
    simp [StructuredDataExtractor.extract_jsonld, extract_jsonldGo_none blocks hall]
  · intro b rest hb
    simp [StructuredDataExtractor.extract_jsonld,
      StructuredDataExtractor.extract_jsonldGo, hb]
  · intro fields h
    simp [StructuredDataExtractor.blockScan, h]

/-- C8 witness: a scan over a non-dict block and a parse failure matches
nothing and returns `None`, via the amended theorem. -/
theorem extract_jsonld_spec_witness :
    StructuredDataExtractor.extract_jsonld [some (Json.str "x"), none] = none :=
  extract_jsonld_spec.2.2.2.1 [some (Json.str "x"), none]
    (by intro b hb; fin_cases hb <;> rfl)

/-- C8 counterexample: a lone JSON-LD block typed `BlogPosting` is returned
by the code (its `relevant_types` has 12 entries), yet `BlogPosting` matches
no entry of the ten-type allow-list stated by the claim, under which nothing
should have been returned; and a `null`-valued `@type` in an earlier block
raises `TypeError` and makes the whole pass return `None` even though a
later `Product` block matches — refuting "returns the first JSON-LD object
in document order whose `@type` matches" as originally stated. -/
theorem jsonld_allowlist_counterexample :
    StructuredDataExtractor.extract_jsonld [some blogBlock] = some blogBlock ∧
    (claimAllowList.any fun t => pyIn t "BlogPosting") = false ∧
    StructuredDataExtractor.is_relevant_schema (Json.str "BlogPosting") =
      .ok true ∧
    StructuredDataExtractor.extract_jsonld
      [some nullTypeBlock, some productBlock] = none ∧
    StructuredDataExtractor.extract_jsonld [some productBlock] =
      some productBlock :=
  ⟨rfl, by decide, rfl, rfl, rfl⟩

/-- C9 amended: for every non-empty markup string `optimize` returns a
string and raises nothing, and when no main-content selector matches it
returns the cleaned markdown of the whole document (the body, or the whole
soup when there is no body).  On the empty markup string the claim fails:
see the counterexample (`ZeroDivisionError` from the token-reduction debug
log). -/
theorem optimize_total_on_nonempty {Node : Type}
    (env : ContentOptimizer.OptimizeEnv Node) (html query : String)
    (hne : html ≠ "") :
    (∃ s : String, ContentOptimizer.optimize env html query = .ok s) ∧
    ((∀ sel ∈ ContentOptimizer.CONTENT_SELECTORS,
        (env.soupOf html).selectOne sel = none) →
      ContentOptimizer.optimize env html query =
        .ok (ContentOptimizer.clean_markdown
          (env.markdownify ((env.soupOf html).body.getD (env.soupOf html).whole)))) := by
  have hlen0 : html.length ≠ 0 := by
    intro h0
    apply hne
    apply String.ext
    have hdata : html.data = [] := List.length_eq_zero.mp h0
    simp [hdata]
  have hbeq : (html.length == 0) = false := by
    simpa using hlen0
  constructor
  · exact ⟨ContentOptimizer.clean_markdown
        (env.markdownify (ContentOptimizer.extract_main_content (env.soupOf html))),
      by simp [ContentOptimizer.optimize, hbeq]⟩
  · intro hsel
    have hnone : ContentOptimizer.CONTENT_SELECTORS.findSome?
        (env.soupOf html).selectOne = none :=
      List.findSome?_eq_none_iff.mpr hsel
    cases hb : (env.soupOf html).body with
    | none =>
        simp [ContentOptimizer.optimize, ContentOptimizer.extract_main_content,
          hnone, hbeq, hb]
    | some bodyNode =>
        simp [ContentOptimizer.optimize, ContentOptimizer.extract_main_content,
          hnone, hbeq, hb]

/-- C9 counterexample: on the empty markup string `optimize` does not return
a string — line 93's debug-log computation `(1 - len(markdown)/len(html))`
divides by `len(html) == 0` and raises `ZeroDivisionError`. -/
theorem optimize_empty_html_raises :
    ContentOptimizer.optimize optimizeEnvNoMatch "" "q" = .error .zeroDivision :=
  rfl

/-- C9 witness: on a non-empty document where no content selector matches and
there is no body, `optimize` returns the cleaned markdown of the whole soup,
through the amended theorem. -/
theorem optimize_total_on_nonempty_witness :
    ContentOptimizer.optimize optimizeEnvNoMatch "<p>x</p>" "q" =
      .ok (ContentOptimizer.clean_markdown "DOC") :=
  (optimize_total_on_nonempty optimizeEnvNoMatch "<p>x</p>" "q" (by decide)).2
    (fun _sel _ => rfl)

/-- Helper: one retry step of the loop — a failed crawl with attempts left
sleeps `2 ^ attempt` and recurses on the next attempt. -/
theorem extractGo_fail_step (alt : String → Option JsonObj) (st : StrategyType)
    (url query : String) (max_retries attempt : Nat)
    (r : WebExtractor.CrawlOutcome) (rest : List WebExtractor.CrawlOutcome)
    (hs : r.success = false) (hlt : attempt + 1 < max_retries) :
    WebExtractor.extractGo alt st url query max_retries attempt (r :: rest) =
      ((WebExtractor.extractGo alt st url query max_retries (attempt + 1) rest).1,
        ⟨2 ^ attempt ::
            (WebExtractor.extractGo alt st url query max_retries (attempt + 1) rest).2.sleeps,
          (WebExtractor.extractGo alt st url query max_retries (attempt + 1) rest).2.altCalls⟩) := by
  simp [WebExtractor.extractGo, hs, hlt]

/-- Helper: when every remaining crawl attempt fails, the retry loop sleeps
`2 ^ attempt` before each retry and raises after the last attempt — the
sleep trace is exactly `[2 ^ attempt, ..., 2 ^ (max_retries - 2)]`. -/
theorem extractGo_all_fail (alt : String → Option JsonObj) (st : StrategyType)
    (url query : String) (max_retries : Nat) :
    ∀ (outcomes : List WebExtractor.CrawlOutcome) (attempt : Nat),
      outcomes ≠ [] → attempt + outcomes.length = max_retries →
      (∀ r ∈ outcomes, r.success = false) →
      WebExtractor.extractGo alt st url query max_retries attempt outcomes =
        (.error (),
          ⟨(List.range' attempt (outcomes.length - 1)).map (fun i => 2 ^ i), []⟩) := by
  intro outcomes
  induction outcomes with
  | nil => intro attempt hne; exact absurd rfl hne
  | cons r rest ih =>
      intro attempt _ hlen hall
      have hs : r.success = false := hall r (List.mem_cons_self r rest)
      cases rest with
      | nil =>
          have hnlt : ¬(attempt + 1 < max_retries) := by
            simp at hlen; omega
          simp [WebExtractor.extractGo, hs, hnlt]
      | cons r2 tl =>
          have hlt : attempt + 1 < max_retries := by
            simp at hlen; omega
          have hrec := ih (attempt + 1) (by simp) (by simp at hlen ⊢; omega)
            (fun x hx => hall x (List.mem_cons_of_mem _ hx))
          rw [extractGo_fail_step alt st url query max_retries attempt r (r2 :: tl) hs hlt,
            hrec]
          simp [List.range']

/-- C4 amended: a failed page load inside `WebExtractor.extract` is retried
up to `max_retries` (default 3) with delay `2 ** attempt` (the base delay
doubling each attempt), raising `ExtractionError` when all attempts fail;
and a successful load with no extractable content falls through to the
alternative-source tiers on the captured HTML on **every** attempt — not
only the final one — returning a `"{strategy}_alternative"` result as soon
as they produce a truthy dict. -/
theorem extract_retry_policy :
    (∀ (crawl : Nat → WebExtractor.CrawlOutcome) (alt : String → Option JsonObj)
        (st : StrategyType) (url query : String) (max_retries : Nat),
        0 < max_retries →
        (∀ i, i < max_retries → (crawl i).success = false) →
        WebExtractor.extract crawl alt st url query max_retries =
          (.error (),
            ⟨(List.range (max_retries - 1)).map (fun i => 2 ^ i), []⟩)) ∧
    (∀ (crawl : Nat → WebExtractor.CrawlOutcome) (alt : String → Option JsonObj)
        (st : StrategyType) (url query : String),
        WebExtractor.extract crawl alt st url query =
          WebExtractor.extract crawl alt st url query 3) ∧
    (∀ (alt : String → Option JsonObj) (st : StrategyType) (url query : String)
        (max_retries attempt : Nat) (r : WebExtractor.CrawlOutcome)
        (rest : List WebExtractor.CrawlOutcome) (d : JsonObj),
        r.success = true → r.content = none → r.html ≠ "" →
        alt r.html = some d → d ≠ [] →
        WebExtractor.extractGo alt st url query max_retries attempt (r :: rest) =
          (.ok ⟨url, query, .obj d, st.value ++ "_alternative", true, none⟩,
            ⟨[], [attempt]⟩)) := by
  refine ⟨?_, fun _ _ _ _ _ => rfl, ?_⟩
  · intro crawl alt st url query m hm hfail
    have h := extractGo_all_fail alt st url query m ((List.range m).map crawl) 0
      (by simp; omega) (by simp) ?_
    · unfold WebExtractor.extract
      rw [h]
      simp [List.range_eq_range']
    · intro r hr
      rw [List.mem_map] at hr
      obtain ⟨i, hi, rfl⟩ := hr
      exact hfail i (List.mem_range.mp hi)
  · intro alt st url query m attempt r rest d hsucc hcontent hhtml halt hd
    rcases d with _ | ⟨kv0, d0⟩
    · exact absurd rfl hd
    · simp [WebExtractor.extractGo, hsucc, hcontent, hhtml, halt]

/-- C4 counterexample: with every attempt loading successfully but extracting
no content and alternative sources succeeding, the run returns the
alternative-source result on attempt 0 of 3 — not on the final retry (index
2) — with no retry sleeps at all, refuting "on the final retry only". -/
theorem extract_alt_on_first_attempt :
    WebExtractor.extract crawlNoContent altProduct .llm "u" "q" 3 =
      (.ok ⟨"u", "q", .obj [("x", Json.num 1)], "llm_alternative", true, none⟩,
        ⟨[], [0]⟩) ∧
    (0 : Nat) ≠ 3 - 1 :=
  ⟨rfl, by decide⟩

/-- C4 witness: the alternative-source fallthrough fires on a non-final
attempt (index 1), through the amended theorem. -/
theorem extract_retry_policy_witness :
    WebExtractor.extractGo altProduct .llm "u" "q" 3 1
        [⟨true, none, "h"⟩] =
      (.ok ⟨"u", "q", .obj [("x", Json.num 1)], "llm_alternative", true, none⟩,
        ⟨[], [1]⟩) :=
  extract_retry_policy.2.2 altProduct .llm "u" "q" 3 1 ⟨true, none, "h"⟩ []
    [("x", Json.num 1)] rfl rfl (by decide) rfl (by simp)

/-- C1 (spec-modelled race): the first path to complete with usable,
non-empty content wins and the other path is cancelled; the fetch step of
`scrape` raises `ExtractionError` exactly when both paths fail (the
first-completing path unusable, the slower path unsuccessful); and any data
`scrape`'s fetch step does return is the successful path's own result — no
partial result is fabricated. -/
theorem race_semantics :
    (∀ (firstPath : RacePath) (r : WebExtractor.ExtractionResult)
        (secondResult : Option WebExtractor.ExtractionResult),
        usableResult r = true →
        extract_with_race firstPath (some r) secondResult =
          ⟨.ok r, some firstPath.other⟩) ∧
    (∀ (firstPath : RacePath)
        (firstResult secondResult : Option WebExtractor.ExtractionResult),
        scrapeFetchStep (extract_with_race firstPath firstResult secondResult) =
            .error .extractionErr ↔
          ((∀ r, firstResult = some r → usableResult r = false) ∧
           (∀ r, secondResult = some r → r.success = false))) ∧
    (∀ (firstPath : RacePath)
        (firstResult secondResult : Option WebExtractor.ExtractionResult)
        (data : Json),
        scrapeFetchStep (extract_with_race firstPath firstResult secondResult) =
            .ok data →
        ∃ r, (firstResult = some r ∨ secondResult = some r) ∧
          r.success = true ∧ data = r.extracted_data) := by
  refine ⟨?_, ?_, ?_⟩
  · intro fp r s h
    simp [extract_with_race, h]
  · intro fp f s
    rcases f with _ | r1
    · rcases s with _ | r2
      · simp [extract_with_race, raceFallback, scrapeFetchStep]
      · cases hr2 : r2.success <;>
          simp [extract_with_race, raceFallback, scrapeFetchStep, hr2]
    · cases hu : usableResult r1
      · rcases s with _ | r2
        · simp [extract_with_race, raceFallback, scrapeFetchStep, hu]
        · cases hr2 : r2.success <;>
            simp [extract_with_race, raceFallback, scrapeFetchStep, hu, hr2]
      · have hsucc : r1.success = true := by
          have h2 := hu
          simp [usableResult] at h2
          exact h2.1
        simp [extract_with_race, scrapeFetchStep, hu, hsucc]
  · intro fp f s data h
    rcases f with _ | r1
    · rcases s with _ | r2
      · simp [extract_with_race, raceFallback, scrapeFetchStep] at h
      · cases hr2 : r2.success
        · simp [extract_with_race, raceFallback, scrapeFetchStep, hr2] at h
        · simp [extract_with_race, raceFallback, scrapeFetchStep, hr2] at h
          exact ⟨r2, Or.inr rfl, hr2, h.symm⟩
    · cases hu : usableResult r1
      · rcases s with _ | r2
        · simp [extract_with_race, raceFallback, scrapeFetchStep, hu] at h
        · cases hr2 : r2.success
          · simp [extract_with_race, raceFallback, scrapeFetchStep, hu, hr2] at h
          · simp [extract_with_race, raceFallback, scrapeFetchStep, hu, hr2] at h
            exact ⟨r2, Or.inr rfl, hr2, h.symm⟩
      · have hsucc : r1.success = true := by
          have h2 := hu
          simp [usableResult] at h2
          exact h2.1
        simp [extract_with_race, scrapeFetchStep, hu, hsucc] at h
        exact ⟨r1, Or.inl rfl, hsucc, h.symm⟩

/-- C1 witness: a usable first-completing result wins the race and the other
path is cancelled, through the race theorem. -/
theorem race_semantics_witness :
    extract_with_race .browser (some unlockerWin) none =
      ⟨.ok unlockerWin, some RacePath.unlocker⟩ :=
  race_semantics.1 .browser unlockerWin none rfl

end DataIntelAgent
